import Mathlib

/-!
Verification development for the chzzk-js client library (src/chzzk.js).

The file shallowly embeds the parts of the source that the checked
properties speak about: the chat-session state machine around
`connectChat` / `disconnectChat` / the transport `onclose` handler
(src/chzzk.js lines 626-774), the inbound frame classifier
`_handleChatMessage` (lines 776-843), the event dispatcher
`on` / `off` / `once` / `_triggerEvent` (lines 570-618 and 908-926), and
the axios response interceptor that refreshes the token on a 401
(lines 53-80).  JavaScript numbers that stay small non-negative
integers are modelled as `Nat`; absent (`undefined`) fields as
`Option`; thrown exceptions as `Except`.
-/

/-! ## String constants of the source -/

/-- Event name string used by the source, line 30. -/
def evChatMessage : String := "chatMessage"

/-- Event name string used by the source, line 28. -/
def evTokenRefresh : String := "tokenRefresh"

/-- Event name string used by the source, line 29. -/
def evTokenExpired : String := "tokenExpired"

/-- Event name string used by the source, line 31. -/
def evChatDonation : String := "chatDonation"

/-- Event name string used by the source, line 32. -/
def evChatSubscription : String := "chatSubscription"

/-- Event name string used by the source, line 33. -/
def evChatNotice : String := "chatNotice"

/-- Event name string used by the source, line 34. -/
def evChatError : String := "chatError"

/-- Event name string used by the source, line 35. -/
def evChatConnected : String := "chatConnected"

/-- Event name string used by the source, line 36. -/
def evChatDisconnected : String := "chatDisconnected"

/-- Frame type discriminator, line 783. -/
def tyCHAT : String := "CHAT"

/-- Frame type discriminator, line 795. -/
def tyDONATION : String := "DONATION"

/-- Frame type discriminator, line 810. -/
def tySUBSCRIPTION : String := "SUBSCRIPTION"

/-- Frame type discriminator, line 825. -/
def tyNOTICE : String := "NOTICE"

/-- Frame type discriminator, line 835. -/
def tyPONG : String := "PONG"

/-- Default tier name the source substitutes for a missing `tierName`
(line 819): the Korean string for "basic subscription". -/
def defaultTierName : String := "기본 구독"

/-- The English word the design documents use for the subscription tier
default; compared against `defaultTierName`. -/
def enBasic : String := "basic"

/-- Default notice type substituted for a missing `noticeType`, line 830. -/
def defaultNoticeType : String := "NORMAL"

/-- Default currency substituted for a missing `currency`, line 803. -/
def defaultCurrency : String := "KRW"

/-- Sample channel id used in concrete runs. -/
def chanA : String := "c1"

/-- Second sample channel id used in concrete runs. -/
def chanB : String := "c2"

/-! ## JavaScript `||`-defaulting helpers

The source substitutes defaults with `x || d`, which replaces any falsy
value: for an absent (`undefined`) field and for the falsy members of
the type (`0` for numbers, `""` for strings).  An array, even an empty
one, is truthy, so only an absent array is replaced. -/

/-- JavaScript `n || d` on an optional number field. -/
def jsOrNat (v : Option Nat) (d : Nat) : Nat :=
  match v with
  | some n => if n = 0 then d else n
  | none => d

/-- JavaScript `s || d` on an optional string field. -/
def jsOrStr (v : Option String) (d : String) : String :=
  match v with
  | some s => if s = "" then d else s
  | none => d

/-- JavaScript `a || d` on an optional array field: any present array,
empty included, is truthy. -/
def jsOrList (v : Option (List String)) (d : List String) : List String :=
  match v with
  | some l => l
  | none => d

/-- JavaScript `!!b` on an optional boolean field (line 804). -/
def jsTruthy (v : Option Bool) : Bool :=
  match v with
  | some b => b
  | none => false

/-! ## Inbound frame classification: `_handleChatMessage`, lines 776-843 -/

/-- A parsed inbound frame as the switch in `_handleChatMessage` reads
it: a `type` discriminator plus the optional payload fields the handler
looks at.  Fields the frame does not carry are `none`. -/
structure RawMessage where
  type : String
  userId : Option String := none
  nickname : Option String := none
  content : Option String := none
  badges : Option (List String) := none
  timestamp : Option Nat := none
  amount : Option Nat := none
  currency : Option String := none
  isAnonymous : Option Bool := none
  months : Option Nat := none
  tier : Option Nat := none
  tierName : Option String := none
  noticeType : Option String := none
deriving DecidableEq

/-- Payload of a `chatMessage` event, lines 784-792. -/
structure ChatMessageEvent where
  channelId : Option String
  userId : Option String
  nickname : Option String
  message : Option String
  badges : List String
  timestamp : Nat
deriving DecidableEq

/-- Payload of a `chatDonation` event, lines 796-807. -/
structure ChatDonationEvent where
  channelId : Option String
  userId : Option String
  nickname : Option String
  message : Option String
  amount : Option Nat
  currency : String
  isAnonymous : Bool
  badges : List String
  timestamp : Nat
deriving DecidableEq

/-- Payload of a `chatSubscription` event, lines 811-822. -/
structure ChatSubscriptionEvent where
  channelId : Option String
  userId : Option String
  nickname : Option String
  message : Option String
  months : Nat
  tier : Nat
  tierName : String
  badges : List String
  timestamp : Nat
deriving DecidableEq

/-- Payload of a `chatNotice` event, lines 826-832. -/
structure ChatNoticeEvent where
  channelId : Option String
  message : Option String
  noticeType : String
  timestamp : Nat
deriving DecidableEq

/-- The event, if any, that `_handleChatMessage` emits for one inbound
frame.  `PONG` and unknown types emit nothing (lines 835-841). -/
inductive EmittedEvent where
  | chatMessage (e : ChatMessageEvent)
  | chatDonation (e : ChatDonationEvent)
  | chatSubscription (e : ChatSubscriptionEvent)
  | chatNotice (e : ChatNoticeEvent)
deriving DecidableEq

/-- Embedding of `_handleChatMessage` (lines 781-843).  `chan` is
`this.chatChannelId` and `now` is `Date.now()` at receipt time. -/
def handleChatMessage (chan : Option String) (now : Nat) (m : RawMessage) :
    Option EmittedEvent :=
  if m.type = tyCHAT then
    some (EmittedEvent.chatMessage
      ⟨chan, m.userId, m.nickname, m.content,
       jsOrList m.badges [], jsOrNat m.timestamp now⟩)
  else if m.type = tyDONATION then
    some (EmittedEvent.chatDonation
      ⟨chan, m.userId, m.nickname, m.content, m.amount,
       jsOrStr m.currency defaultCurrency, jsTruthy m.isAnonymous,
       jsOrList m.badges [], jsOrNat m.timestamp now⟩)
  else if m.type = tySUBSCRIPTION then
    some (EmittedEvent.chatSubscription
      ⟨chan, m.userId, m.nickname, m.content,
       jsOrNat m.months 1, jsOrNat m.tier 1,
       jsOrStr m.tierName defaultTierName,
       jsOrList m.badges [], jsOrNat m.timestamp now⟩)
  else if m.type = tyNOTICE then
    some (EmittedEvent.chatNotice
      ⟨chan, m.content, jsOrStr m.noticeType defaultNoticeType,
       jsOrNat m.timestamp now⟩)
  else
    none

/-! ## Chat session state machine: lines 626-774

The mutable fields of the `Chzzk` instance that the chat lifecycle
touches (constructor lines 39-44), plus three observation logs that
record externally visible actions: `pendingReconnects` holds the
delays of `setTimeout` reconnect timers that have been scheduled and
neither fired nor cleared (the source never stores or clears the
handle, so nothing ever removes one except its own firing),
`scheduledLog` accumulates every reconnect delay ever scheduled, and
`emitted` the names of emitted events.  `connectCalls` counts the
`connectChat` invocations that got past validation and teardown and
reached the chat-token fetch of line 644. -/

/-- State of the `this.chatSocket` field: `null`, or a WebSocket in one
of its ready states. -/
inductive SockState where
  | null
  | connecting
  | opened
  | closed
deriving DecidableEq

/-- The chat-related instance state of a `Chzzk` object. -/
structure ChatState where
  chatSocket : SockState
  chatChannelId : Option String
  chatHeartbeatActive : Bool
  chatReconnectAttempts : Nat
  chatMaxReconnectAttempts : Nat
  pendingReconnects : List Nat
  scheduledLog : List Nat
  emitted : List String
  connectCalls : Nat
deriving DecidableEq

/-- The constructor's chat fields, lines 39-44: no socket, no channel,
no heartbeat, zero reconnect attempts, a maximum of 5. -/
def initialChatState : ChatState :=
  ⟨SockState.null, none, false, 0, 5, [], [], [], 0⟩

/-- Embedding of `_stopChatHeartbeat`, lines 741-746: clears the
heartbeat interval if one is set. -/
def stopChatHeartbeat (s : ChatState) : ChatState :=
  { s with chatHeartbeatActive := false }

/-- Embedding of `_cleanupChatConnection`, lines 752-755: stops the
heartbeat and resets `chatReconnectAttempts` to 0. -/
def cleanupChatConnection (s : ChatState) : ChatState :=
  { stopChatHeartbeat s with chatReconnectAttempts := 0 }

/-- One `_triggerEvent` call recorded in the emission log. -/
def triggerEventLog (name : String) (s : ChatState) : ChatState :=
  { s with emitted := s.emitted ++ [name] }

/-- Embedding of the `chatSocket.onclose` handler installed by
`connectChat`, lines 662-673.  The transport has just closed (so the
socket's ready state is CLOSED; the handler itself never nulls
`this.chatSocket`).  It runs `_cleanupChatConnection`, emits
`chatDisconnected`, and, when `chatReconnectAttempts` is still below
`chatMaxReconnectAttempts`, increments the counter and schedules a
reconnect `setTimeout` with delay `1000 * 2 ** chatReconnectAttempts`
milliseconds (read after the increment).  The timer handle is
discarded, so the delay is appended to `pendingReconnects` with
nothing ever able to clear it. -/
def onCloseHandler (s : ChatState) : ChatState :=
  let s1 := cleanupChatConnection { s with chatSocket := SockState.closed }
  let s2 := triggerEventLog evChatDisconnected s1
  if s2.chatReconnectAttempts < s2.chatMaxReconnectAttempts then
    let s3 := { s2 with chatReconnectAttempts := s2.chatReconnectAttempts + 1 }
    let delay := 1000 * 2 ^ s3.chatReconnectAttempts
    { s3 with pendingReconnects := s3.pendingReconnects ++ [delay],
              scheduledLog := s3.scheduledLog ++ [delay] }
  else s2

/-- Embedding of `disconnectChat`, lines 701-721.  With no socket it
resolves immediately.  Otherwise it runs `_cleanupChatConnection` and
nulls the socket; when the socket was OPEN it first replaces `onclose`
with a handler that only nulls and resolves (so the closure emits no
`chatDisconnected` and schedules no reconnect), then closes it — in
either branch the observable outcome is the same.  Note that no branch
touches `pendingReconnects`: the source has no `clearTimeout`. -/
def disconnectChat (s : ChatState) : ChatState :=
  if s.chatSocket = SockState.null then s
  else
    let s1 := cleanupChatConnection s
    { s1 with chatSocket := SockState.null }

/-- Embedding of the head of `connectChat`, lines 631-644: reject an
empty channel id (line 632); if a socket exists, await
`disconnectChat` (lines 636-638); record the channel id in
`this.chatChannelId` (line 640); then reach the chat-token fetch of
line 644, counted in `connectCalls`. -/
def connectChatStart (channelId : String) (s : ChatState) :
    Except String ChatState :=
  if channelId = "" then Except.error "채널 ID가 필요합니다."
  else
    let s1 := if s.chatSocket = SockState.null then s else disconnectChat s
    let s2 := { s1 with chatChannelId := some channelId }
    Except.ok { s2 with connectCalls := s2.connectCalls + 1 }

/-- The `connectChat` call through the chat-token fetch, lines 631-694:
when the fetch succeeds the call goes on to create the WebSocket (line
649); when it throws, `_handleApiError` rethrows (line 693) with every
mutation made so far — in particular the line-640 write to
`this.chatChannelId` — left in place.  The boolean reports whether the
call proceeded past the fetch. -/
def connectChatTokenOutcome (fetchOk : Bool) (channelId : String)
    (s : ChatState) : ChatState × Bool :=
  match connectChatStart channelId s with
  | Except.error _ => (s, false)
  | Except.ok s1 =>
    if fetchOk then ({ s1 with chatSocket := SockState.connecting }, true)
    else (s1, false)

/-- Firing of one scheduled reconnect timer, line 669-671: the callback
runs `this.connectChat(channelId).catch(() => {})`; the captured
`channelId` is the one line 640 stored when the closure was installed,
so it is read from `chatChannelId` here.  Rejections are swallowed. -/
def fireReconnectTimer (s : ChatState) : ChatState :=
  match s.pendingReconnects with
  | [] => s
  | _ :: rest =>
    let s1 := { s with pendingReconnects := rest }
    match s1.chatChannelId with
    | none => s1
    | some cid =>
      match connectChatStart cid s1 with
      | Except.ok s2 => s2
      | Except.error _ => s1

/-! ## Transport events during one connect attempt, lines 646-691 -/

/-- An event the transport delivers to the handlers `connectChat`
installed: open, close, or error carrying an underlying transport
error (identified by a number). -/
inductive TEvent where
  | topen
  | tclose
  | terror (e : Nat)
deriving DecidableEq

/-- First settlement wins: a JavaScript promise ignores `resolve` and
`reject` after it has settled. -/
def settleOnce (r : Option (Except Nat Unit)) (v : Except Nat Unit) :
    Option (Except Nat Unit) :=
  match r with
  | some x => some x
  | none => some v

/-- Dispatch of one transport event to the handlers of lines 651-678:
`onopen` sends the auth frame, starts the heartbeat, emits
`chatConnected` and resolves; `onclose` is `onCloseHandler`;
`onerror` emits `chatError` and rejects with the underlying error. -/
def handleTransportEvent (s : ChatState) (r : Option (Except Nat Unit)) :
    TEvent → ChatState × Option (Except Nat Unit)
  | TEvent.topen =>
    let s1 := { s with chatSocket := SockState.opened,
                       chatHeartbeatActive := true }
    (triggerEventLog evChatConnected s1, settleOnce r (Except.ok ()))
  | TEvent.tclose => (onCloseHandler s, r)
  | TEvent.terror e =>
    (triggerEventLog evChatError s, settleOnce r (Except.error e))

/-- A whole sequence of transport events delivered during one connect
attempt, with the promise's settlement threaded through. -/
def runTransport (s : ChatState) (r : Option (Except Nat Unit)) :
    List TEvent → ChatState × Option (Except Nat Unit)
  | [] => (s, r)
  | e :: rest =>
    let p := handleTransportEvent s r e
    runTransport p.1 p.2 rest

deriving instance DecidableEq for Except

/-! ## Concrete states and lemmas for the lifecycle properties -/

/-- A connected session right after a successful `connectChat`: open
socket, heartbeat running, zero reconnect attempts. -/
def connState : ChatState :=
  ⟨SockState.opened, some chanA, true, 0, 5, [], [], [], 0⟩

/-- A run of consecutive transport closures with no explicit
`disconnectChat`: each closure fires `onCloseHandler`, then the
scheduled timer fires (`fireReconnectTimer`, which re-enters
`connectChat`), and the re-established transport closes again. -/
def c1seq : Nat → ChatState
  | 0 => onCloseHandler connState
  | n + 1 => onCloseHandler (fireReconnectTimer (c1seq n))

/-- C1: `_cleanupChatConnection` (line 754) resets
`chatReconnectAttempts` to 0 at the start of every `onclose`, so the
counter read by line 671 is always 1: all five consecutive closures
schedule a 2000 ms reconnect — not 2s, 4s, 8s, 16s, 32s — the
heartbeat is indeed stopped, and even after the 5th failed attempt a
6th reconnect is still scheduled (the `< maxReconnectAttempts` guard
of line 667 can never fail). -/
theorem reconnectBackoff_resets_every_close :
    (c1seq 4).scheduledLog = [2000, 2000, 2000, 2000, 2000] ∧
    (c1seq 4).scheduledLog ≠ [2000, 4000, 8000, 16000, 32000] ∧
    (c1seq 5).scheduledLog = [2000, 2000, 2000, 2000, 2000, 2000] ∧
    (c1seq 0).chatHeartbeatActive = false ∧
    (c1seq 0).chatReconnectAttempts = 1 := by decide

/-- C2: after a transport closure schedules a reconnect timer, calling
`disconnectChat` nulls the socket but leaves the timer pending
(`disconnectChat` never clears it — the source stores no handle and
has no `clearTimeout`), and when the timer fires it invokes
`connectChat`, so a further connect attempt (token fetch) occurs after
the disconnect completed. -/
theorem disconnect_leaves_pending_reconnect_firing :
    (disconnectChat (onCloseHandler connState)).chatSocket = SockState.null ∧
    (disconnectChat (onCloseHandler connState)).pendingReconnects = [2000] ∧
    connState.connectCalls = 0 ∧
    (fireReconnectTimer (disconnectChat (onCloseHandler connState))).connectCalls
      = 1 := by decide

/-- State reached by an initial explicit `connectChat chanA` on a fresh
client, after the chat-token fetch succeeded and the WebSocket of line
649 was created. -/
def c4s : ChatState := (connectChatTokenOutcome true chanA initialChatState).1

/-- C4 counterexample: during an initial explicit `connectChat` whose
transport errors and closes before ever opening, the returned promise
is rejected with the underlying transport error — but a reconnect IS
scheduled (the `onclose` handler of lines 662-673 runs identically for
closures before a successful open), contradicting the claim that no
reconnect is scheduled for a failure during the initial connect call. -/
theorem initial_connect_failure_schedules_reconnect_cex :
    (runTransport c4s none [TEvent.terror 7, TEvent.tclose]).2 =
      some (Except.error 7) ∧
    (runTransport c4s none [TEvent.terror 7, TEvent.tclose]).1.emitted.count
      evChatConnected = 0 ∧
    (runTransport c4s none [TEvent.terror 7, TEvent.tclose]).1.pendingReconnects
      = [2000] ∧
    (runTransport c4s none [TEvent.terror 7, TEvent.tclose]).1.pendingReconnects
      ≠ [] := by decide

/-- Dispatching one transport event never changes
`chatMaxReconnectAttempts`. -/
lemma handleTransportEvent_max (s : ChatState) (r : Option (Except Nat Unit))
    (e : TEvent) :
    (handleTransportEvent s r e).1.chatMaxReconnectAttempts
      = s.chatMaxReconnectAttempts := by
  cases e with
  | topen => rfl
  | tclose =>
    simp only [handleTransportEvent, onCloseHandler, cleanupChatConnection,
      stopChatHeartbeat, triggerEventLog]
    split <;> rfl
  | terror e => rfl

/-- Dispatching one transport event only ever appends to the pending
reconnect timers. -/
lemma handleTransportEvent_pending (s : ChatState)
    (r : Option (Except Nat Unit)) (e : TEvent) :
    ∃ t, (handleTransportEvent s r e).1.pendingReconnects
      = s.pendingReconnects ++ t := by
  cases e with
  | topen => exact ⟨[], by simp [handleTransportEvent, triggerEventLog]⟩
  | tclose =>
    simp only [handleTransportEvent, onCloseHandler, cleanupChatConnection,
      stopChatHeartbeat, triggerEventLog]
    split
    · exact ⟨[1000 * 2 ^ (0 + 1)], rfl⟩
    · exact ⟨[], by simp⟩
  | terror e => exact ⟨[], by simp [handleTransportEvent, triggerEventLog]⟩

/-- A settled promise stays settled through any further transport
events. -/
lemma runTransport_settled (evs : List TEvent) (s : ChatState)
    (x : Except Nat Unit) :
    (runTransport s (some x) evs).2 = some x := by
  induction evs generalizing s with
  | nil => rfl
  | cons e rest ih =>
    have he : (handleTransportEvent s (some x) e).2 = some x := by
      cases e <;> rfl
    simp only [runTransport]
    rw [he]
    exact ih _

/-- Once a reconnect timer is pending, further transport events never
remove it. -/
lemma runTransport_pending_mono (evs : List TEvent) (s : ChatState)
    (r : Option (Except Nat Unit)) (hne : s.pendingReconnects ≠ []) :
    (runTransport s r evs).1.pendingReconnects ≠ [] := by
  induction evs generalizing s r with
  | nil => exact hne
  | cons e rest ih =>
    simp only [runTransport]
    apply ih
    obtain ⟨t, ht⟩ := handleTransportEvent_pending s r e
    rw [ht]
    intro hcon
    exact hne (List.append_eq_nil.mp hcon).1

/-- Any transport closure during a connect attempt schedules a
reconnect, whether or not the transport ever opened, as long as the
attempt cap is at least 1. -/
lemma runTransport_close_pending (evs : List TEvent) (s : ChatState)
    (r : Option (Except Nat Unit)) (hmax : 1 ≤ s.chatMaxReconnectAttempts)
    (hcl : TEvent.tclose ∈ evs) :
    (runTransport s r evs).1.pendingReconnects ≠ [] := by
  induction evs generalizing s r with
  | nil => cases hcl
  | cons e rest ih =>
    simp only [runTransport]
    rcases List.mem_cons.mp hcl with he | hrest
    · subst he
      apply runTransport_pending_mono
      have hmax' : 0 < s.chatMaxReconnectAttempts := hmax
      have hp : (onCloseHandler s).pendingReconnects
          = s.pendingReconnects ++ [1000 * 2 ^ (0 + 1)] := by
        simp only [onCloseHandler, cleanupChatConnection, stopChatHeartbeat,
          triggerEventLog]
        rw [if_pos hmax']
      show (onCloseHandler s).pendingReconnects ≠ []
      rw [hp]
      intro hcon
      cases (List.append_eq_nil.mp hcon).2
    · exact ih _ _ (by rw [handleTransportEvent_max]; exact hmax) hrest

/-- C4 amended: on a transport error delivered before any open during
an initial explicit `connectChat`, the call's promise is rejected with
the underlying transport error; however, if the transport then
delivers a close event (as a failed WebSocket connection does), a
reconnect IS scheduled exactly as for a post-open closure — the close
handler does not distinguish failures before open from closures after
a successful open. -/
theorem connectChat_preOpen_failure_rejects_and_reconnects
    (s : ChatState) (e : Nat) (rest : List TEvent)
    (hmax : 1 ≤ s.chatMaxReconnectAttempts)
    (hcl : TEvent.tclose ∈ rest) :
    (runTransport s none (TEvent.terror e :: rest)).2 =
      some (Except.error e) ∧
    (runTransport s none (TEvent.terror e :: rest)).1.pendingReconnects
      ≠ [] := by
  constructor
  · show (runTransport (triggerEventLog evChatError s)
      (some (Except.error e)) rest).2 = some (Except.error e)
    exact runTransport_settled rest _ _
  · show (runTransport (triggerEventLog evChatError s)
      (some (Except.error e)) rest).1.pendingReconnects ≠ []
    exact runTransport_close_pending rest _ _ hmax hcl

/-- Witness for the amended C4 theorem at a concrete run. -/
theorem connectChat_preOpen_failure_witness :
    (runTransport c4s none [TEvent.terror 7, TEvent.tclose]).2 =
      some (Except.error 7) ∧
    (runTransport c4s none [TEvent.terror 7, TEvent.tclose]).1.pendingReconnects
      ≠ [] :=
  connectChat_preOpen_failure_rejects_and_reconnects c4s 7 [TEvent.tclose]
    (by decide) (by decide)

/-- A session active on `chanA` with the heartbeat running and two
reconnect attempts consumed, about to be replaced by
`connectChat chanB`. -/
def c5Start : ChatState :=
  ⟨SockState.opened, some chanA, true, 2, 5, [], [], [], 0⟩

/-- The state `connectChatStart chanB c5Start` reaches: old transport
nulled, heartbeat stopped, reconnect counter reset, new channel id
recorded, token fetch entered — and the emission log untouched. -/
def c5After : ChatState :=
  ⟨SockState.null, some chanB, false, 0, 5, [], [], [], 1⟩

/-- C5 counterexample: calling `connectChat` over an active session
does tear the old session down (socket nulled, heartbeat stopped,
reconnect counter reset) before proceeding, but ZERO `chatDisconnected`
events are emitted for the old connection — `disconnectChat` (lines
710-715) replaces the socket's `onclose` with a handler that only
nulls and resolves, so the event-emitting handler of line 662 never
runs — contradicting the claim of exactly one `chatDisconnected`. -/
theorem reconnect_teardown_emits_no_disconnect_cex :
    connectChatStart chanB c5Start = Except.ok c5After ∧
    c5After.chatSocket = SockState.null ∧
    c5After.chatHeartbeatActive = false ∧
    c5After.chatReconnectAttempts = 0 ∧
    c5After.emitted.count evChatDisconnected = 0 ∧
    c5After.emitted.count evChatDisconnected ≠ 1 := by decide

/-- C5 amended: when `connectChat` is called while a session is active,
the previous transport is fully torn down — socket closed and nulled,
heartbeat stopped, reconnect counter reset — before the new connection
is established, and NO `chatDisconnected` event is emitted for the old
connection (the emission log is unchanged). -/
theorem connectChat_teardown_before_new_connection
    (s : ChatState) (cid : String) (hcid : cid ≠ "")
    (hsock : s.chatSocket ≠ SockState.null) :
    connectChatStart cid s = Except.ok
      { s with chatSocket := SockState.null, chatHeartbeatActive := false,
               chatReconnectAttempts := 0, chatChannelId := some cid,
               connectCalls := s.connectCalls + 1 } ∧
    ({ s with chatSocket := SockState.null, chatHeartbeatActive := false,
              chatReconnectAttempts := 0, chatChannelId := some cid,
              connectCalls := s.connectCalls + 1 } : ChatState).emitted.count
        evChatDisconnected
      = s.emitted.count evChatDisconnected := by
  refine ⟨?_, rfl⟩
  cases s with
  | mk a b c d e f g h i =>
    simp [connectChatStart, disconnectChat, cleanupChatConnection,
      stopChatHeartbeat, hcid, hsock]

/-- Witness for the amended C5 theorem at a concrete active session. -/
theorem connectChat_teardown_witness :
    connectChatStart chanB c5Start = Except.ok
      { c5Start with
        chatSocket := SockState.null
        chatHeartbeatActive := false
        chatReconnectAttempts := 0
        chatChannelId := some chanB
        connectCalls := c5Start.connectCalls + 1 } ∧
    ({ c5Start with
       chatSocket := SockState.null
       chatHeartbeatActive := false
       chatReconnectAttempts := 0
       chatChannelId := some chanB
       connectCalls := c5Start.connectCalls + 1 } : ChatState).emitted.count
        evChatDisconnected
      = c5Start.emitted.count evChatDisconnected :=
  connectChat_teardown_before_new_connection c5Start chanB (by decide)
    (by decide)

/-- C10: every `connectChat` call with a non-empty channel id stores
that id in `this.chatChannelId` (line 640) before the chat-token fetch
of line 644, and a fetch failure rethrows without restoring the field,
so the id is recorded whether or not the call succeeds. -/
theorem connectChat_records_channelId_even_on_failure
    (fetchOk : Bool) (cid : String) (s : ChatState) (hcid : cid ≠ "") :
    ((connectChatTokenOutcome fetchOk cid s).1).chatChannelId = some cid := by
  cases s with
  | mk a b c d e f g h i =>
    simp only [connectChatTokenOutcome, connectChatStart, disconnectChat,
      cleanupChatConnection, stopChatHeartbeat, if_neg hcid]
    by_cases ha : a = SockState.null <;>
      simp [ha] <;> cases fetchOk <;> rfl

/-- Witness for C10: a connect whose token fetch fails still records
the channel id. -/
theorem connectChat_records_channelId_witness :
    ((connectChatTokenOutcome false chanA initialChatState).1).chatChannelId
      = some chanA :=
  connectChat_records_channelId_even_on_failure false chanA initialChatState
    (by decide)

/-! ## C6: defaults substituted for missing optional frame fields -/

/-- A `SUBSCRIPTION` frame carrying no `months`, `tier` or `tierName`. -/
def mSubNoTier : RawMessage :=
  { type := tySUBSCRIPTION
    userId := some "u1"
    nickname := some "n"
    content := some "hi" }

/-- A `CHAT` frame carrying no `badges` and no `timestamp`. -/
def mChatNoOpt : RawMessage :=
  { type := tyCHAT
    userId := some "u1"
    nickname := some "n"
    content := some "hi" }

/-- C6 counterexample: a `SUBSCRIPTION` frame with a missing `tierName`
is emitted with `tierName` equal to the source's literal default
`"기본 구독"` (line 819), which is not the string `"basic"` the claim
states (months and tier do default to 1). -/
theorem subscription_tierName_default_cex :
    handleChatMessage (some chanA) 111 mSubNoTier =
      some (EmittedEvent.chatSubscription
        ⟨some chanA, some "u1", some "n", some "hi", 1, 1,
         defaultTierName, [], 111⟩) ∧
    defaultTierName ≠ enBasic := by decide

/-- C6 amended: a `CHAT` frame with no badges and no timestamp yields a
`chatMessage` event with `badges = []`, `timestamp` equal to the
receipt time and `message` taken from the frame's `content`; a
`SUBSCRIPTION` frame with missing fields yields a `chatSubscription`
event with `months` defaulting to 1, `tier` defaulting to 1 and
`tierName` defaulting to `"기본 구독"` (the source's Korean literal for
"basic subscription", not the string `"basic"`). -/
theorem frame_defaults_for_missing_fields :
    (∀ (chan : Option String) (now : Nat) (m : RawMessage),
      m.type = tyCHAT → m.badges = none → m.timestamp = none →
      handleChatMessage chan now m =
        some (EmittedEvent.chatMessage
          ⟨chan, m.userId, m.nickname, m.content, [], now⟩)) ∧
    (∀ (chan : Option String) (now : Nat) (m : RawMessage),
      m.type = tySUBSCRIPTION → m.months = none → m.tier = none →
      m.tierName = none →
      handleChatMessage chan now m =
        some (EmittedEvent.chatSubscription
          ⟨chan, m.userId, m.nickname, m.content, 1, 1, defaultTierName,
           jsOrList m.badges [], jsOrNat m.timestamp now⟩)) := by
  constructor
  · intro chan now m hty hb ht
    simp [handleChatMessage, hty, hb, ht, tyCHAT, jsOrList, jsOrNat]
  · intro chan now m hty hm htr htn
    simp [handleChatMessage, hty, hm, htr, htn, tyCHAT, tyDONATION,
      tySUBSCRIPTION, jsOrNat, jsOrStr]

/-- Witness for the C6 amended theorem on concrete frames. -/
theorem frame_defaults_witness :
    handleChatMessage (some chanA) 222 mChatNoOpt =
      some (EmittedEvent.chatMessage
        ⟨some chanA, some "u1", some "n", some "hi", [], 222⟩) ∧
    handleChatMessage (some chanA) 333 mSubNoTier =
      some (EmittedEvent.chatSubscription
        ⟨some chanA, some "u1", some "n", some "hi", 1, 1,
         defaultTierName, [], 333⟩) :=
  ⟨frame_defaults_for_missing_fields.1 (some chanA) 222 mChatNoOpt rfl rfl
     rfl,
   frame_defaults_for_missing_fields.2 (some chanA) 333 mSubNoTier rfl rfl
     rfl rfl⟩

/-! ## Event dispatcher: `on` / `off` / `once` / `_triggerEvent`

The constructor (lines 27-37) builds `this.eventHandlers` as an object
literal with nine keys, each holding an array of handler functions.
It is modelled as an association list from event-name strings to
handler lists; the nine own keys of the literal are the recognized
names.  A JavaScript handler function is identified by its object
identity, modelled as a numeric id, together with the effect its body
has on the dispatcher when invoked: nothing, throwing, or calling
`this.off` on some handler (the body of the `once` wrapper of lines
612-615, which removes itself before running the wrapped handler). -/

/-- What a subscriber callback does when invoked. -/
inductive HEffect where
  | pure
  | raises
  | offH (eventName : String) (target : Nat)
deriving DecidableEq

/-- A registered handler: its identity and its behaviour. -/
structure Handler where
  id : Nat
  eff : HEffect
deriving DecidableEq

/-- The event-handler registry of one `Chzzk` instance. -/
structure Dispatcher where
  handlers : List (String × List Handler)
deriving DecidableEq

/-- The nine event names of the constructor's object literal,
lines 27-37, in source order. -/
def initialEventNames : List String :=
  [evTokenRefresh, evTokenExpired, evChatMessage, evChatDonation,
   evChatSubscription, evChatNotice, evChatError, evChatConnected,
   evChatDisconnected]

/-- The registry as the constructor builds it: every recognized name
mapped to an empty array. -/
def mkDispatcher : Dispatcher :=
  ⟨initialEventNames.map (fun n => (n, []))⟩

/-- JavaScript property read `this.eventHandlers[eventName]`: `some`
of the handler array when the key exists, `none` (undefined, falsy)
otherwise. -/
def lookupHandlers (d : Dispatcher) (name : String) :
    Option (List Handler) :=
  (d.handlers.find? (fun p => p.1 == name)).map Prod.snd

/-- The handler array for a name, empty when the name is unknown. -/
def handlersFor (d : Dispatcher) (name : String) : List Handler :=
  (lookupHandlers d name).getD []

/-- In-place update of the array stored under one key (JavaScript
mutates the array object held by the unique own key). -/
def updateHandlers (d : Dispatcher) (name : String)
    (f : List Handler → List Handler) : Dispatcher :=
  ⟨d.handlers.map (fun p => if p.1 == name then (p.1, f p.2) else p)⟩

/-- The `push` of line 581. -/
def pushHandler (d : Dispatcher) (name : String) (h : Handler) :
    Dispatcher :=
  updateHandlers d name (fun l => l ++ [h])

/-- Removal of the first array element with the given identity: the
`indexOf` / `splice` pair of lines 599-602. -/
def removeFirstId (l : List Handler) (tid : Nat) : List Handler :=
  match l with
  | [] => []
  | x :: xs => if x.id = tid then xs else x :: removeFirstId xs tid

/-- Embedding of `off` by handler identity, lines 594-603: a no-op on
an unknown name, otherwise splices out the first matching handler. -/
def offById (d : Dispatcher) (name : String) (tid : Nat) : Dispatcher :=
  match lookupHandlers d name with
  | none => d
  | some _ => updateHandlers d name (fun l => removeFirstId l tid)

/-- Embedding of `off(eventName, handler)`, lines 594-603. -/
def off (d : Dispatcher) (name : String) (h : Handler) : Dispatcher :=
  offById d name h.id

/-- Embedding of `on(eventName, handler)`, lines 576-587: throws on an
unrecognized event name, otherwise appends the handler. -/
def onEvt (d : Dispatcher) (name : String) (h : Handler) :
    Except String Dispatcher :=
  match lookupHandlers d name with
  | none => Except.error ("지원하지 않는 이벤트: " ++ name)
  | some _ => Except.ok (pushHandler d name h)

/-- The de-registration closure `on` returns, lines 584-586: a
function that calls `this.off(eventName, handler)`. -/
def onUnsubscribe (name : String) (h : Handler) :
    Dispatcher → Dispatcher :=
  fun d => off d name h

/-- Whether an `Except` is a success. -/
def isOkE (x : Except String Dispatcher) : Bool :=
  match x with
  | Except.ok _ => true
  | Except.error _ => false

/-- One invocation `handler(data)` of line 921: it may mutate the
registry through `off` or throw (the thrown value is identified with
the handler's id). -/
def invokeHandler (h : Handler) (d : Dispatcher) :
    Except Nat Dispatcher :=
  match h.eff with
  | HEffect.pure => Except.ok d
  | HEffect.raises => Except.error h.id
  | HEffect.offH n t => Except.ok (offById d n t)

/-- Result of one `_triggerEvent` call: the registry afterwards, the
ids of the handlers invoked in order, and the ids whose exceptions the
`catch` of lines 922-924 caught and logged. -/
structure TriggerResult where
  disp : Dispatcher
  invoked : List Nat
  logged : List Nat
deriving DecidableEq

/-- The `for (const handler of this.eventHandlers[eventName])` loop of
lines 919-925 over the live array: the iterator reads the element at
its current index from the current array state, invokes it inside
`try`/`catch` (a throw is logged and the loop continues), and advances
the index.  Handlers only ever remove elements, so the array never
grows and the initial length bounds the number of iterations. -/
def triggerLoop (name : String) :
    Nat → Nat → Dispatcher → List Nat → List Nat → TriggerResult
  | 0, _, d, inv, log => ⟨d, inv, log⟩
  | fuel + 1, i, d, inv, log =>
    match (handlersFor d name).get? i with
    | none => ⟨d, inv, log⟩
    | some h =>
      match invokeHandler h d with
      | Except.ok d2 => triggerLoop name fuel (i + 1) d2 (inv ++ [h.id]) log
      | Except.error e =>
        triggerLoop name fuel (i + 1) d (inv ++ [h.id]) (log ++ [e])

/-- Embedding of `_triggerEvent(eventName, data)`, lines 914-926:
returns immediately on an unknown name (lines 915-917), otherwise
iterates the live handler array.  The function is total: every
handler invocation sits inside the `try`/`catch` of lines 920-924, so
no handler exception ever propagates out of the dispatch. -/
def triggerEvent (d : Dispatcher) (name : String) : TriggerResult :=
  match lookupHandlers d name with
  | none => ⟨d, [], []⟩
  | some l => triggerLoop name l.length 0 d [] []

/-- A sequence of registration-interface calls. -/
inductive RegOp where
  | onOp (name : String) (h : Handler)
  | offOp (name : String) (h : Handler)

/-- Application of a call sequence to a registry; `none` when some
`on` threw. -/
def applyOps : List RegOp → Dispatcher → Option Dispatcher
  | [], d => some d
  | RegOp.onOp n h :: rest, d =>
    match onEvt d n h with
    | Except.ok d2 => applyOps rest d2
    | Except.error _ => none
  | RegOp.offOp n h :: rest, d => applyOps rest (off d n h)

/-- Whether a handler's body throws. -/
def raisesB (h : Handler) : Bool :=
  match h.eff with
  | HEffect.raises => true
  | _ => false

/-! ## Dispatcher lemmas -/

/-- Updating the array under a key rewrites what a lookup of that key
finds, entry-wise. -/
lemma find?_map_update (l : List (String × List Handler)) (name : String)
    (f : List Handler → List Handler) :
    (l.map (fun p => if p.1 == name then (p.1, f p.2) else p)).find?
        (fun p => p.1 == name)
      = (l.find? (fun p => p.1 == name)).map (fun p => (p.1, f p.2)) := by
  induction l with
  | nil => rfl
  | cons p rest ih =>
    rcases p with ⟨a, b⟩
    by_cases hp : a = name
    · subst hp
      simp [List.find?]
    · have hb : (a == name) = false := by simpa using hp
      simp only [List.map_cons, hb, Bool.false_eq_true, if_false]
      rw [List.find?_cons_of_neg _ (by simp [hp]),
        List.find?_cons_of_neg _ (by simp [hp])]
      exact ih

/-- Lookup after an update of the same key. -/
lemma lookupHandlers_update_self (d : Dispatcher) (name : String)
    (f : List Handler → List Handler) :
    lookupHandlers (updateHandlers d name f) name
      = (lookupHandlers d name).map f := by
  unfold lookupHandlers updateHandlers
  rw [find?_map_update]
  cases d.handlers.find? (fun p => p.1 == name) <;> rfl

/-- Updating never changes the key list. -/
lemma updateHandlers_keys (d : Dispatcher) (name : String)
    (f : List Handler → List Handler) :
    (updateHandlers d name f).handlers.map Prod.fst
      = d.handlers.map Prod.fst := by
  unfold updateHandlers
  simp only [List.map_map]
  apply List.map_congr_left
  rintro ⟨a, b⟩ _
  by_cases hn : a = name
  · subst hn
    simp [Function.comp]
  · simp [Function.comp, hn]

/-- Two updates of the same key compose. -/
lemma updateHandlers_comp (d : Dispatcher) (name : String)
    (f g : List Handler → List Handler) :
    updateHandlers (updateHandlers d name f) name g
      = updateHandlers d name (fun l => g (f l)) := by
  unfold updateHandlers
  cases d with
  | mk l =>
    simp only [List.map_map]
    congr 1
    apply List.map_congr_left
    rintro ⟨a, b⟩ _
    by_cases hn : a = name
    · subst hn
      simp [Function.comp]
    · simp [Function.comp, hn]

/-- An update that fixes every matching entry is the identity. -/
lemma updateHandlers_eq_self (d : Dispatcher) (name : String)
    (f : List Handler → List Handler)
    (hf : ∀ p ∈ d.handlers, p.1 = name → f p.2 = p.2) :
    updateHandlers d name f = d := by
  unfold updateHandlers
  cases d with
  | mk l =>
    congr 1
    have hfix : ∀ p ∈ l,
        (if p.1 == name then (p.1, f p.2) else p) = id p := by
      rintro ⟨a, b⟩ hp
      by_cases hn : a = name
      · subst hn
        have hb := hf (a, b) hp rfl
        simp [hb]
      · simp [hn]
    rw [List.map_congr_left hfix, List.map_id]

/-- A lookup fails exactly on names outside the key list. -/
lemma lookupHandlers_eq_none_iff (d : Dispatcher) (name : String) :
    lookupHandlers d name = none ↔ name ∉ d.handlers.map Prod.fst := by
  simp only [lookupHandlers, Option.map_eq_none', List.find?_eq_none,
    beq_iff_eq, List.mem_map]
  constructor
  · rintro hall ⟨p, hp, hfst⟩
    exact hall p hp hfst
  · intro hno p hp hfst
    exact hno ⟨p, hp, hfst⟩

/-- With distinct keys, membership determines the lookup. -/
lemma find?_of_mem_nodupKeys (l : List (String × List Handler))
    (hnd : (l.map Prod.fst).Nodup) (p : String × List Handler)
    (hp : p ∈ l) : l.find? (fun q => q.1 == p.1) = some p := by
  induction l with
  | nil => cases hp
  | cons q rest ih =>
    rcases List.mem_cons.mp hp with rfl | hp2
    · simp
    · have hq : q.1 ∉ rest.map Prod.fst := (List.nodup_cons.mp hnd).1
      have hne : (q.1 == p.1) = false := by
        simp only [beq_eq_false_iff_ne, ne_eq]
        intro he
        exact hq (he ▸ List.mem_map.mpr ⟨p, hp2, rfl⟩)
      simp only [List.find?, hne]
      exact ih (List.nodup_cons.mp hnd).2 hp2

/-- Version of `find?_of_mem_nodupKeys` through `lookupHandlers`. -/
lemma lookup_of_mem_nodupKeys (d : Dispatcher)
    (hnd : (d.handlers.map Prod.fst).Nodup) (p : String × List Handler)
    (hp : p ∈ d.handlers) : lookupHandlers d p.1 = some p.2 := by
  unfold lookupHandlers
  rw [find?_of_mem_nodupKeys d.handlers hnd p hp]
  rfl

/-- Removing an id absent from a list only strips the appended
handler. -/
lemma removeFirstId_append (l : List Handler) (h : Handler)
    (hni : h.id ∉ l.map Handler.id) :
    removeFirstId (l ++ [h]) h.id = l := by
  induction l with
  | nil => simp [removeFirstId]
  | cons x xs ih =>
    have hx : x.id ≠ h.id := by
      intro he
      exact hni (List.mem_map.mpr ⟨x, List.mem_cons_self x xs, he⟩)
    have hxs : h.id ∉ xs.map Handler.id := by
      intro hm
      exact hni (List.mem_map.mpr (by
        obtain ⟨y, hy, hye⟩ := List.mem_map.mp hm
        exact ⟨y, List.mem_cons_of_mem x hy, hye⟩))
    simp [removeFirstId, hx, ih hxs]

/-- When no handler of the event mutates the registry (each one either
returns or throws), the live iteration of `_triggerEvent` walks the
unchanged array: from index `i` it invokes exactly the remaining
handlers in order and logs exactly the throwing ones. -/
lemma triggerLoop_nonmut (name : String) (l : List Handler) :
    ∀ (fuel i : Nat) (d : Dispatcher) (inv log : List Nat),
      lookupHandlers d name = some l →
      (∀ h ∈ l, h.eff = HEffect.pure ∨ h.eff = HEffect.raises) →
      l.length ≤ i + fuel →
      triggerLoop name fuel i d inv log =
        ⟨d, inv ++ ((l.drop i).map Handler.id),
            log ++ (((l.drop i).filter raisesB).map Handler.id)⟩ := by
  intro fuel
  induction fuel with
  | zero =>
    intro i d inv log hl hnm hle
    have hdrop : l.drop i = [] := List.drop_eq_nil_of_le (by omega)
    simp [triggerLoop, hdrop]
  | succ fuel ih =>
    intro i d inv log hl hnm hle
    have hfor : handlersFor d name = l := by simp [handlersFor, hl]
    rcases hg : l.get? i with _ | h
    · have hg2 : l[i]? = none := by
        rw [← List.get?_eq_getElem?]
        exact hg
      have hlen : l.length ≤ i := List.get?_eq_none.mp hg
      have hdrop : l.drop i = [] := List.drop_eq_nil_of_le hlen
      simp [triggerLoop, hfor, hg, hg2, hdrop]
    · have hg2 : l[i]? = some h := by
        rw [← List.get?_eq_getElem?]
        exact hg
      have hmem := List.get?_mem hg
      have hlt : i < l.length := (List.get?_eq_some.mp hg).1
      have hdrop : l.drop i = h :: l.drop (i + 1) := by
        obtain ⟨hlt2, hget⟩ := List.getElem?_eq_some.mp hg2
        rw [List.drop_eq_getElem_cons hlt2, hget]
      rcases hnm h hmem with he | he
      · simp only [triggerLoop, hfor, hg, hg2, invokeHandler, he]
        rw [ih (i + 1) d (inv ++ [h.id]) log hl hnm (by omega)]
        rw [hdrop]
        simp [raisesB, he]
      · simp only [triggerLoop, hfor, hg, hg2, invokeHandler, he]
        rw [ih (i + 1) d (inv ++ [h.id]) (log ++ [h.id]) hl hnm (by omega)]
        rw [hdrop]
        simp [raisesB, he]

/-- C7 amended: for every registry state reached by `on`/`off` calls
and every emit during which no invoked handler deregisters anything,
the handlers invoked are exactly those registered for the name at the
moment the emit starts, synchronously in registration order.  (The
counterexample shows the qualification is necessary: a handler that
removes an already-reached handler — e.g. a `once` wrapper removing
itself — shifts the live array under the iterator and skips the next
handler.) -/
theorem emit_invokes_snapshot_when_no_midEmit_removal
    (d : Dispatcher) (name : String)
    (hnm : ∀ h ∈ handlersFor d name,
      h.eff = HEffect.pure ∨ h.eff = HEffect.raises) :
    (triggerEvent d name).invoked = (handlersFor d name).map Handler.id := by
  rcases hl : lookupHandlers d name with _ | l
  · simp [triggerEvent, handlersFor, hl]
  · have hfor : handlersFor d name = l := by simp [handlersFor, hl]
    rw [hfor] at hnm ⊢
    simp only [triggerEvent, hl]
    rw [triggerLoop_nonmut name l l.length 0 d [] [] hl hnm (by omega)]
    simp

/-- The `once` wrapper of lines 612-615, registered first: when
invoked it removes itself from the `chatMessage` array (line 613). -/
def onceW : Handler := ⟨1, HEffect.offH evChatMessage 1⟩

/-- A second, plain subscriber registered after the wrapper. -/
def plainH : Handler := ⟨2, HEffect.pure⟩

/-- The registry after `once(chatMessage, …)` then `on(chatMessage, …)`
on a fresh instance. -/
def dC7 : Dispatcher :=
  pushHandler (pushHandler mkDispatcher evChatMessage onceW)
    evChatMessage plainH

/-- C7 counterexample: with a `once`-style self-removing wrapper
registered before a plain handler, emitting `chatMessage` invokes only
the wrapper — the `for…of` loop of line 919 iterates the live array,
the wrapper's `splice` shifts the remaining element to the index the
iterator has already passed, and the second registered handler is
skipped — contradicting the claim that the handlers invoked are
exactly those registered at the moment the emit starts. -/
theorem emit_skips_after_midEmit_removal_cex :
    applyOps [RegOp.onOp evChatMessage onceW, RegOp.onOp evChatMessage plainH]
      mkDispatcher = some dC7 ∧
    (handlersFor dC7 evChatMessage).map Handler.id = [1, 2] ∧
    (triggerEvent dC7 evChatMessage).invoked = [1] ∧
    (triggerEvent dC7 evChatMessage).invoked
      ≠ (handlersFor dC7 evChatMessage).map Handler.id := by decide

/-- Witness for the amended C7 theorem: two non-mutating handlers on
`chatNotice` are both invoked, in registration order. -/
theorem emit_snapshot_witness :
    (triggerEvent
      (pushHandler (pushHandler mkDispatcher evChatNotice ⟨3, HEffect.pure⟩)
        evChatNotice ⟨4, HEffect.pure⟩) evChatNotice).invoked =
    (handlersFor
      (pushHandler (pushHandler mkDispatcher evChatNotice ⟨3, HEffect.pure⟩)
        evChatNotice ⟨4, HEffect.pure⟩) evChatNotice).map Handler.id :=
  emit_invokes_snapshot_when_no_midEmit_removal
    (pushHandler (pushHandler mkDispatcher evChatNotice ⟨3, HEffect.pure⟩)
      evChatNotice ⟨4, HEffect.pure⟩) evChatNotice (by decide)

/-- C8: event dispatch is exception-safe.  `triggerEvent` is a total
function — every handler call sits inside the `try`/`catch` of lines
920-924, so no handler exception reaches the emitter — and when the
handlers of the event do not mutate the registry, a throwing handler
is caught and logged while every registered handler, the ones after
the throwing one included, is still invoked; the registry is left
untouched. -/
theorem emit_isolates_handler_exceptions
    (d : Dispatcher) (name : String)
    (hnm : ∀ h ∈ handlersFor d name,
      h.eff = HEffect.pure ∨ h.eff = HEffect.raises) :
    (triggerEvent d name).invoked = (handlersFor d name).map Handler.id ∧
    (triggerEvent d name).logged
      = ((handlersFor d name).filter raisesB).map Handler.id ∧
    (triggerEvent d name).disp = d := by
  rcases hl : lookupHandlers d name with _ | l
  · simp [triggerEvent, handlersFor, hl]
  · have hfor : handlersFor d name = l := by simp [handlersFor, hl]
    rw [hfor] at hnm ⊢
    simp only [triggerEvent, hl]
    rw [triggerLoop_nonmut name l l.length 0 d [] [] hl hnm (by omega)]
    simp

/-- Witness for C8: a throwing handler before a plain one on
`chatError`: both invoked, the throw logged, registry unchanged. -/
theorem emit_isolates_handler_exceptions_witness :
    (triggerEvent
      (pushHandler (pushHandler mkDispatcher evChatError ⟨5, HEffect.raises⟩)
        evChatError ⟨6, HEffect.pure⟩) evChatError).invoked =
    (handlersFor
      (pushHandler (pushHandler mkDispatcher evChatError ⟨5, HEffect.raises⟩)
        evChatError ⟨6, HEffect.pure⟩) evChatError).map Handler.id ∧
    (triggerEvent
      (pushHandler (pushHandler mkDispatcher evChatError ⟨5, HEffect.raises⟩)
        evChatError ⟨6, HEffect.pure⟩) evChatError).logged =
    ((handlersFor
      (pushHandler (pushHandler mkDispatcher evChatError ⟨5, HEffect.raises⟩)
        evChatError ⟨6, HEffect.pure⟩) evChatError).filter raisesB).map
      Handler.id ∧
    (triggerEvent
      (pushHandler (pushHandler mkDispatcher evChatError ⟨5, HEffect.raises⟩)
        evChatError ⟨6, HEffect.pure⟩) evChatError).disp =
    pushHandler (pushHandler mkDispatcher evChatError ⟨5, HEffect.raises⟩)
      evChatError ⟨6, HEffect.pure⟩ :=
  emit_isolates_handler_exceptions
    (pushHandler (pushHandler mkDispatcher evChatError ⟨5, HEffect.raises⟩)
      evChatError ⟨6, HEffect.pure⟩) evChatError (by decide)

/-- A successful `on` never changes the key list. -/
lemma onEvt_ok_keys (d d2 : Dispatcher) (name : String) (h : Handler)
    (hok : onEvt d name h = Except.ok d2) :
    d2.handlers.map Prod.fst = d.handlers.map Prod.fst := by
  unfold onEvt at hok
  rcases hl : lookupHandlers d name with _ | l
  · rw [hl] at hok
    cases hok
  · rw [hl] at hok
    cases hok
    exact updateHandlers_keys d name _

/-- `off` never changes the key list. -/
lemma off_keys (d : Dispatcher) (name : String) (h : Handler) :
    (off d name h).handlers.map Prod.fst = d.handlers.map Prod.fst := by
  unfold off offById
  rcases hl : lookupHandlers d name with _ | l
  · rfl
  · exact updateHandlers_keys d name _

/-- Any sequence of registration calls leaves the key list of the
starting registry unchanged. -/
lemma applyOps_keys :
    ∀ (ops : List RegOp) (d0 d : Dispatcher), applyOps ops d0 = some d →
      d.handlers.map Prod.fst = d0.handlers.map Prod.fst := by
  intro ops
  induction ops with
  | nil =>
    intro d0 d hd
    cases hd
    rfl
  | cons op rest ih =>
    intro d0 d hd
    cases op with
    | onOp n h =>
      unfold applyOps at hd
      rcases ho : onEvt d0 n h with e | d1
      · rw [ho] at hd
        cases hd
      · rw [ho] at hd
        exact (ih d1 d hd).trans (onEvt_ok_keys d0 d1 n h ho)
    | offOp n h =>
      unfold applyOps at hd
      exact (ih _ d hd).trans (off_keys d0 n h)

/-- The keys of the constructor's registry are the nine recognized
event names. -/
lemma mkDispatcher_keys :
    mkDispatcher.handlers.map Prod.fst = initialEventNames := by
  rfl

/-- The success of `on` is decided exactly by key membership. -/
lemma isOkE_onEvt_iff (d : Dispatcher) (name : String) (h : Handler) :
    isOkE (onEvt d name h) = true ↔ name ∈ d.handlers.map Prod.fst := by
  rcases hl : lookupHandlers d name with _ | l
  · have hm := (lookupHandlers_eq_none_iff d name).mp hl
    simp [onEvt, isOkE, hl, hm]
  · have hm : name ∈ d.handlers.map Prod.fst := by
      by_contra hn
      rw [(lookupHandlers_eq_none_iff d name).mpr hn] at hl
      cases hl
    simp [onEvt, isOkE, hl, hm]

/-- C9: on every registry reachable from construction by `on`/`off`
calls, (1) the key list is still exactly the nine event names fixed by
the constructor; (2) `on(name, h)` succeeds if and only if `name` is
one of the nine (otherwise it throws the configuration error of line
578); and (3) for a recognized name, `on` appends the handler to that
name's array, the de-registration closure it returns is
`off(name, h)`, and — when the handler was not already registered —
invoking that closure restores the registry exactly. -/
theorem onEvt_recognizes_fixed_event_names
    (ops : List RegOp) (d : Dispatcher)
    (hd : applyOps ops mkDispatcher = some d) :
    d.handlers.map Prod.fst = initialEventNames ∧
    (∀ (name : String) (h : Handler),
      isOkE (onEvt d name h) = true ↔ name ∈ initialEventNames) ∧
    (∀ (name : String) (h : Handler), name ∈ initialEventNames →
      onEvt d name h = Except.ok (pushHandler d name h) ∧
      handlersFor (pushHandler d name h) name = handlersFor d name ++ [h] ∧
      onUnsubscribe name h (pushHandler d name h)
        = off (pushHandler d name h) name h ∧
      (h.id ∉ (handlersFor d name).map Handler.id →
        off (pushHandler d name h) name h = d)) := by
  have hkeys : d.handlers.map Prod.fst = initialEventNames :=
    (applyOps_keys ops mkDispatcher d hd).trans mkDispatcher_keys
  have hnd : (d.handlers.map Prod.fst).Nodup := by
    rw [hkeys]
    decide
  refine ⟨hkeys, ?_, ?_⟩
  · intro name h
    rw [isOkE_onEvt_iff d name h, hkeys]
  · intro name h hmem
    have hmemk : name ∈ d.handlers.map Prod.fst := by
      rw [hkeys]
      exact hmem
    obtain ⟨p, hp, hfst⟩ := List.mem_map.mp hmemk
    have hlp : lookupHandlers d name = some p.2 := by
      rw [← hfst]
      exact lookup_of_mem_nodupKeys d hnd p hp
    have hpush : lookupHandlers (pushHandler d name h) name
        = some (p.2 ++ [h]) := by
      unfold pushHandler
      rw [lookupHandlers_update_self, hlp]
      rfl
    refine ⟨?_, ?_, rfl, ?_⟩
    · unfold onEvt
      rw [hlp]
    · unfold handlersFor
      rw [hpush, hlp]
      rfl
    · intro hni
      have hni2 : h.id ∉ (p.2).map Handler.id := by
        unfold handlersFor at hni
        rw [hlp] at hni
        exact hni
      unfold off offById
      rw [hpush]
      unfold pushHandler
      rw [updateHandlers_comp]
      apply updateHandlers_eq_self
      intro q hq hqn
      have hlq : lookupHandlers d q.1 = some q.2 :=
        lookup_of_mem_nodupKeys d hnd q hq
      rw [hqn, hlp] at hlq
      have hq2 : q.2 = p.2 := (Option.some.inj hlq).symm
      rw [hq2]
      exact removeFirstId_append p.2 h hni2

/-- Witness for C9 on the freshly constructed registry. -/
theorem onEvt_recognizes_fixed_event_names_witness :
    mkDispatcher.handlers.map Prod.fst = initialEventNames ∧
    (isOkE (onEvt mkDispatcher "WHISPER" ⟨9, HEffect.pure⟩) = true ↔
      "WHISPER" ∈ initialEventNames) ∧
    onEvt mkDispatcher evChatMessage ⟨9, HEffect.pure⟩
      = Except.ok (pushHandler mkDispatcher evChatMessage ⟨9, HEffect.pure⟩) ∧
    handlersFor (pushHandler mkDispatcher evChatMessage ⟨9, HEffect.pure⟩)
        evChatMessage
      = handlersFor mkDispatcher evChatMessage ++ [⟨9, HEffect.pure⟩] ∧
    off (pushHandler mkDispatcher evChatMessage ⟨9, HEffect.pure⟩)
        evChatMessage ⟨9, HEffect.pure⟩
      = mkDispatcher :=
  ⟨(onEvt_recognizes_fixed_event_names [] mkDispatcher rfl).1,
   (onEvt_recognizes_fixed_event_names [] mkDispatcher rfl).2.1
     "WHISPER" ⟨9, HEffect.pure⟩,
   ((onEvt_recognizes_fixed_event_names [] mkDispatcher rfl).2.2
     evChatMessage ⟨9, HEffect.pure⟩ (by decide)).1,
   ((onEvt_recognizes_fixed_event_names [] mkDispatcher rfl).2.2
     evChatMessage ⟨9, HEffect.pure⟩ (by decide)).2.1,
   ((onEvt_recognizes_fixed_event_names [] mkDispatcher rfl).2.2
     evChatMessage ⟨9, HEffect.pure⟩ (by decide)).2.2.2 (by decide)⟩

/-! ## Response interceptor: 401 handling, lines 53-80

The axios response interceptor retries a request that failed with
status 401 after refreshing the token (lines 57-76), by re-issuing the
original request through `this.httpClient(originalRequest)` (line 72)
— which routes the retried request through the SAME interceptor again.
The config carries the flags the guard of lines 58-61 reads;
`unauthorizedAt i` says whether the i-th issue of the request comes
back 401, and `refreshOk` whether `refreshAccessToken` succeeds.  The
recursion of the source is unbounded; it is modelled with explicit
fuel, and running out of fuel is reported as `stillRetrying` — the
state in which the real code is still re-issuing the request. -/

/-- The instance flags the interceptor guard reads. -/
structure HttpCfg where
  autoRefreshToken : Bool
  hasRefreshToken : Bool
deriving DecidableEq

/-- How one REST call ends. -/
inductive RestOutcome where
  | success
  | surfacedUnauthorized
  | refreshFailed
  | stillRetrying
deriving DecidableEq

/-- One REST call through the interceptor, returning how many times
the underlying request was issued together with the outcome.  Mirrors
lines 54-80: a non-401 response passes through; a 401 with auto
refresh enabled and a refresh token set triggers
`refreshAccessToken()` and, on refresh success, re-issues the request
through the same interceptor; a refresh failure rejects; a 401
without the guard's conditions is surfaced to the caller. -/
def interceptorRun (cfg : HttpCfg) (unauthorizedAt : Nat → Bool)
    (refreshOk : Bool) : Nat → Nat → Nat × RestOutcome
  | _, 0 => (0, RestOutcome.stillRetrying)
  | i, fuel + 1 =>
    if unauthorizedAt i then
      if cfg.autoRefreshToken && cfg.hasRefreshToken then
        if refreshOk then
          let r := interceptorRun cfg unauthorizedAt refreshOk (i + 1) fuel
          (r.1 + 1, r.2)
        else (1, RestOutcome.refreshFailed)
      else (1, RestOutcome.surfacedUnauthorized)
    else (1, RestOutcome.success)

/-- A client with auto refresh enabled and a refresh token set. -/
def cfgAuto : HttpCfg := ⟨true, true⟩

/-- A server that answers every issue of the request with 401. -/
def alwaysUnauthorized : Nat → Bool := fun _ => true

/-- C3: the interceptor has no once-only guard (no `_retry` flag on
`originalRequest`), so a retried request that again receives 401 goes
through the whole refresh-and-retry path again: against a server that
always answers 401, with refreshes succeeding, one REST call issues
the request 10 times within fuel 10 and is still retrying — the
claimed "retried exactly once, then surfaced" bound of at most 2
issues is exceeded. -/
theorem interceptor_retries_unbounded_on_repeated_401 :
    interceptorRun cfgAuto alwaysUnauthorized true 0 10
      = (10, RestOutcome.stillRetrying) ∧
    2 < (interceptorRun cfgAuto alwaysUnauthorized true 0 10).1 := by decide

/-- For contrast: when the retried request succeeds, the call ends
after exactly two issues, and when auto refresh is disabled the 401 is
surfaced at once — the paths of lines 77-79. -/
lemma interceptorRun_happy_paths :
    interceptorRun cfgAuto (fun i => i = 0) true 0 10
      = (2, RestOutcome.success) ∧
    interceptorRun ⟨false, true⟩ alwaysUnauthorized true 0 10
      = (1, RestOutcome.surfacedUnauthorized) ∧
    interceptorRun cfgAuto alwaysUnauthorized false 0 10
      = (1, RestOutcome.refreshFailed) := by decide
